import Mathlib

/-!
Shallow embedding of the uvre render device (two OpenGL backends), covering
the vertex-binding-slot allocator, the buffer/pipeline registry bridge, the
immediate buffer writes, the command-list replay loop, render-target creation
and shader creation, as implemented in src/gl_33/gl33_renderdevice.cpp (with
gl33_private.hpp) and src/src_gl/gl_renderdevice.cpp.

Machine integers (size_t) are modelled as Nat with explicit reduction modulo
2^64 at the points where the source performs wrapping arithmetic.  Backend
(driver) calls are modelled as events or as tracked backend state; driver
behaviour itself (framebuffer completeness, shader compilation) enters as
oracle parameters or as predicates modelled from the spec, marked as such.
-/

namespace UVRE

/-- Width of size_t on the target platform: buffer offsets and sizes are
64-bit unsigned integers, so sums wrap modulo 2^64. -/
def W64 : Nat := 2 ^ 64

/-! ### Vertex-binding-slot allocator (struct VBOBinding, both backends) -/

/-- One node of the device-global singly linked list of vertex-buffer binding
slots (struct VBOBinding).  The Lean list mirrors the linked list starting at
the head pointer. -/
structure VBOBinding where
  index : Nat
  is_free : Bool
deriving DecidableEq

/-- Position (from the head) of the first node marked free, scanning in link
order, exactly as the loops of both getFreeVBOBinding variants do. -/
def firstFreePos : List VBOBinding → Option Nat
  | [] => none
  | b :: rest => if b.is_free then some 0 else (firstFreePos rest).map (· + 1)

/-- Slot index stored at a given position of the list. -/
def slotAt : List VBOBinding → Nat → Nat
  | [], _ => 0
  | b :: _, 0 => b.index
  | _ :: rest, p + 1 => slotAt rest p

/-- Mark the node at a given position as used (the caller's
buffer->vbo->is_free = false, performed right after getFreeVBOBinding). -/
def markUsed : List VBOBinding → Nat → List VBOBinding
  | [], _ => []
  | b :: rest, 0 => { b with is_free := false } :: rest
  | b :: rest, p + 1 => b :: markUsed rest p

/-- Index of the head node ((*head)->index in the gl_33 variant); 0 for the
empty list, which never occurs: the device constructor seeds the list with a
single free node of index 0. -/
def headIndex : List VBOBinding → Nat
  | [] => 0
  | b :: _ => b.index

/-- Index of the LAST node of the list.  The src_gl variant grows the list
from this node (the node its loop is visiting when no node was free). -/
def lastIndex : List VBOBinding → Nat
  | [] => 0
  | [b] => b.index
  | _ :: rest => lastIndex rest

/-- gl_33 getFreeVBOBinding fused with the caller's is_free = false: scan for
a free node and claim it; otherwise prepend a fresh node carrying index =
head index + 1 (the fresh node is immediately claimed by the caller).
Returns the claimed slot index and the updated list. -/
def acquireSlot33 (vbos : List VBOBinding) : Nat × List VBOBinding :=
  match firstFreePos vbos with
  | some p => (slotAt vbos p, markUsed vbos p)
  | none => (headIndex vbos + 1, ⟨headIndex vbos + 1, false⟩ :: vbos)

/-- src_gl getFreeVBOBinding fused with the caller's is_free = false: the same
scan, but the freshly created node takes index = LAST node's index + 1 while
still being prepended at the head pointer.  (On the empty list the source
would return nullptr; the list is never empty, the constructor seeds it.) -/
def acquireSlotSrc (vbos : List VBOBinding) : Nat × List VBOBinding :=
  match firstFreePos vbos with
  | some p => (slotAt vbos p, markUsed vbos p)
  | none => (lastIndex vbos + 1, ⟨lastIndex vbos + 1, false⟩ :: vbos)

/-- destroyBuffer's buffer->vbo->is_free = true: release the node carrying
the buffer's slot index (node indices are unique in the gl_33 variant, so
index identifies the node the source addresses by pointer). -/
def releaseSlot : List VBOBinding → Nat → List VBOBinding
  | [], _ => []
  | b :: rest, slot =>
      if b.index = slot then { b with is_free := true } :: rest
      else b :: releaseSlot rest slot

/-- The freshly constructed device's slot list: one free node of index 0. -/
def initVbos : List VBOBinding := [⟨0, true⟩]

/-- Slot indices handed to three vertex buffers created in a row on a fresh
src_gl device, none destroyed in between. -/
def srcSlots3 : List Nat :=
  let r0 := acquireSlotSrc initVbos
  let r1 := acquireSlotSrc r0.2
  let r2 := acquireSlotSrc r1.2
  [r0.1, r1.1, r2.1]

/-- The same sequence on the gl_33 device. -/
def gl33Slots3 : List Nat :=
  let r0 := acquireSlot33 initVbos
  let r1 := acquireSlot33 r0.2
  let r2 := acquireSlot33 r1.2
  [r0.1, r1.1, r2.1]

/-- Slot-list states reachable on a gl_33 device by any sequence of buffer
creations (acquire) and destructions (release), from the constructor's seed
list. -/
inductive Reach33 : List VBOBinding → Prop where
  | init : Reach33 initVbos
  | acquire (l : List VBOBinding) : Reach33 l → Reach33 (acquireSlot33 l).2
  | release (l : List VBOBinding) (s : Nat) :
      Reach33 l → Reach33 (releaseSlot l s)

/-! ### Immediate writeBuffer (both backends) -/

/-- gl_33 RenderDeviceImpl::writeBuffer: the guard is
`offset + size > buffer->size` in wrapping size_t arithmetic; on rejection
the call (which returns void) issues nothing; otherwise glBufferSubData is
issued with the given range.  The result is the range handed to the backend,
none when the guard rejects. -/
def writeBuffer33 (bufSize offset size : Nat) : Option (Nat × Nat) :=
  if (offset + size) % W64 > bufSize then none
  else some (offset, size)

/-- src_gl GLRenderDevice::writeBuffer: the guard is
`offset + size >= buffer->size` (note: >=, not >) and the call returns a
bool.  First component: the returned bool; second: the
glNamedBufferSubData range issued to the backend, if any. -/
def writeBufferSrc (bufSize offset size : Nat) : Bool × Option (Nat × Nat) :=
  if (offset + size) % W64 ≥ bufSize then (false, none)
  else (true, some (offset, size))

/-! ### gl_33 resource registry and the buffer/pipeline bridge -/

/-- One vertex attribute declaration (VertexAttrib of the public header,
carried already translated where enum values are involved). -/
structure VertexAttrib where
  id : Nat
  type : Nat
  count : Nat
  offset : Nat
  normalized : Bool
deriving DecidableEq

/-- struct VertexArray_S (gl33_private.hpp) plus the GL-side state of the
underlying vertex array object: `bound` maps a binding point (the first
argument of glBindVertexBuffer) to the buffer object bound there.  `vbobj`
is the struct's cached buffer name (the OPTIMIZE field), which only the
BIND_VERTEX_BUFFER replay path updates. -/
structure VertexArray_S where
  index : Nat
  vaobj : Nat
  vbobj : Nat
  bound : List (Nat × Nat)
deriving DecidableEq

/-- Blending sub-state of struct Pipeline_S (values already translated by
getBlendEquation / getBlendFunc at creation, as in the struct). -/
structure BlendingState where
  enabled : Bool
  equation : Nat
  sfactor : Nat
  dfactor : Nat
deriving DecidableEq

/-- Depth-testing sub-state of struct Pipeline_S. -/
structure DepthTestingState where
  enabled : Bool
  func : Nat
deriving DecidableEq

/-- Face-culling sub-state of struct Pipeline_S. -/
structure FaceCullingState where
  enabled : Bool
  front_face : Nat
  cull_face : Nat
deriving DecidableEq

/-- struct Pipeline_S (gl33_private.hpp).  Enum translation happens once in
createPipeline; the fields hold the translated backend values exactly as the
struct does. -/
structure Pipeline_S where
  bound_ibo : Nat
  bound_vao : Nat
  program : Nat
  blending : BlendingState
  depth_testing : DepthTestingState
  face_culling : FaceCullingState
  scissor_test : Bool
  index_size : Nat
  index_type : Nat
  primitive_mode : Nat
  fill_mode : Nat
  vertex_stride : Nat
  attributes : List VertexAttrib
  vaos : List VertexArray_S
deriving DecidableEq

/-- struct Buffer_S: `vbo` holds the claimed binding-slot index (the source
stores a pointer to the VBOBinding node; in the gl_33 variant slot indices
are unique and identify the node), none for non-vertex buffers. -/
structure Buffer_S where
  bufobj : Nat
  vbo : Option Nat
  size : Nat
deriving DecidableEq

/-- Find the vertex-array-group node with the given group index in a
pipeline's chain, scanning from the head as the source loop does. -/
def findVA : List VertexArray_S → Nat → Option VertexArray_S
  | [], _ => none
  | n :: rest, i => if n.index = i then some n else findVA rest i

/-- Index of the head node of a vertex-array chain ((*head)->index). -/
def vaHeadIndex : List VertexArray_S → Nat
  | [] => 0
  | n :: _ => n.index

/-- gl_33 getVertexArray: look the requested group index up in the chain; on
a miss, prepend a fresh node whose index is HEAD index + 1 — not the
requested index — with a freshly generated vertex array object and vbobj = 0
(setVertexFormat only declares attribute formats; no state tracked here).
Returns the node, the updated chain and the updated fresh-name counter. -/
def getVertexArray (vaos : List VertexArray_S) (index fresh : Nat) :
    VertexArray_S × List VertexArray_S × Nat :=
  match findVA vaos index with
  | some n => (n, vaos, fresh)
  | none =>
      let n : VertexArray_S := ⟨vaHeadIndex vaos + 1, fresh, 0, []⟩
      (n, n :: vaos, fresh + 1)

/-- Record buffer `buf` at binding point `point` of a vertex array object
(the backend effect of glBindVertexBuffer; an older binding at the same
point is replaced). -/
def setBinding : List (Nat × Nat) → Nat → Nat → List (Nat × Nat)
  | [], point, buf => [(point, buf)]
  | (p, b) :: rest, point, buf =>
      if p = point then (p, buf) :: rest else (p, b) :: setBinding rest point buf

/-- Apply an update to the chain node with the given backend name. -/
def updateVA (vaos : List VertexArray_S) (vaobj : Nat)
    (f : VertexArray_S → VertexArray_S) : List VertexArray_S :=
  vaos.map fun n => if n.vaobj = vaobj then f n else n

/-- The notification bind performed for one pipeline when a vertex buffer is
created, and symmetrically for each live buffer when a pipeline is created:
glBindVertexArray(getVertexArray(&vaos, slot / max, pipeline)->vaobj) then
glBindVertexBuffer(slot % max, bufobj, 0, stride). -/
def bindBufferToPipeline (p : Pipeline_S) (slot buf maxB fresh : Nat) :
    Pipeline_S × Nat :=
  let r := getVertexArray p.vaos (slot / maxB) fresh
  let vaos2 := updateVA r.2.1 r.1.vaobj
    (fun n => { n with bound := setBinding n.bound (slot % maxB) buf })
  ({ p with vaos := vaos2 }, r.2.2)

/-- The gl_33 device registry state relevant to the bridge:
max_vbo_bindings (queried from the driver at construction), the slot free
list, the two notify lists, and a counter producing fresh backend object
names (glGen*; the counter starts at 1 since 0 is the null name). -/
structure DeviceState where
  max_vbo_bindings : Nat
  vbos : List VBOBinding
  pipelines : List Pipeline_S
  buffers : List Buffer_S
  next_obj : Nat
deriving DecidableEq

/-- Device state right after the RenderDeviceImpl constructor. -/
def initDevice (maxB : Nat) : DeviceState :=
  { max_vbo_bindings := maxB, vbos := initVbos, pipelines := [],
    buffers := [], next_obj := 1 }

/-- BufferType of the public header (the header is not among the sources;
constructors per spec section 6, which lists vertex/index/uniform/storage
buffer kinds). -/
inductive BufferType where
  | VERTEX_BUFFER
  | INDEX_BUFFER
  | UNIFORM_BUFFER
  | STORAGE_BUFFER
deriving DecidableEq

/-- BufferCreateInfo: type and byte size (the initial-data pointer carries no
state the claims observe). -/
structure BufferCreateInfo where
  type : BufferType
  size : Nat
deriving DecidableEq

/-- The createBuffer notification loop over the existing pipelines, threading
the fresh-name counter. -/
def notifyPipelines : List Pipeline_S → Nat → Nat → Nat → Nat →
    List Pipeline_S × Nat
  | [], _, _, _, fresh => ([], fresh)
  | p :: rest, slot, buf, maxB, fresh =>
      let r := bindBufferToPipeline p slot buf maxB fresh
      let rr := notifyPipelines rest slot buf maxB r.2
      (r.1 :: rr.1, rr.2)

/-- gl_33 RenderDeviceImpl::createBuffer: generate a buffer name, and only
for type VERTEX_BUFFER claim a binding slot, notify every existing pipeline
and append the buffer to the notify list.  The glBufferData upload carries no
registry state.  Note the source tests only the type, never the size. -/
def createBuffer33 (d : DeviceState) (info : BufferCreateInfo) :
    Buffer_S × DeviceState :=
  let bufobj := d.next_obj
  if info.type = BufferType.VERTEX_BUFFER then
    let a := acquireSlot33 d.vbos
    let np := notifyPipelines d.pipelines a.1 bufobj d.max_vbo_bindings
      (d.next_obj + 1)
    let buf : Buffer_S := ⟨bufobj, some a.1, info.size⟩
    (buf, { d with vbos := a.2, pipelines := np.1,
                   buffers := d.buffers ++ [buf], next_obj := np.2 })
  else
    let buf : Buffer_S := ⟨bufobj, none, info.size⟩
    (buf, { d with next_obj := d.next_obj + 1 })

/-- Erase the first list entry with the given buffer name, reporting whether
one was found (the source compares node pointers; buffer names are unique). -/
def eraseBufferById : List Buffer_S → Nat → List Buffer_S × Bool
  | [], _ => ([], false)
  | b :: rest, i =>
      if b.bufobj = i then (rest, true)
      else
        let r := eraseBufferById rest i
        (b :: r.1, r.2)

/-- static destroyBuffer (gl_33): erase the buffer from the notify list and,
if it was found there, mark its slot node free again (the source
dereferences buffer->vbo inside the found branch; vbo is non-null exactly
for the vertex buffers that sit in the list). -/
def destroyBuffer33 (d : DeviceState) (buf : Buffer_S) : DeviceState :=
  let r := eraseBufferById d.buffers buf.bufobj
  let vbos2 :=
    if r.2 then
      match buf.vbo with
      | some s => releaseSlot d.vbos s
      | none => d.vbos
    else d.vbos
  { d with buffers := r.1, vbos := vbos2 }

/-- The createPipeline loop binding every currently-live vertex buffer into
the fresh pipeline (buffers in the notify list are vertex buffers, so vbo is
always set; getD 0 mirrors the unchecked dereference). -/
def bindAllBuffers : Pipeline_S → List Buffer_S → Nat → Nat → Pipeline_S × Nat
  | p, [], _, fresh => (p, fresh)
  | p, b :: rest, maxB, fresh =>
      let r := bindBufferToPipeline p (b.vbo.getD 0) b.bufobj maxB fresh
      bindAllBuffers r.1 rest maxB r.2

/-- gl_33 RenderDeviceImpl::createPipeline, successful-link path: create the
program, take the translated state from the creation info (carried here in
`base`; the enum translation tables are value tables with no registry
effect), create the initial group-0 vertex array, bind every live vertex
buffer, then append the pipeline to the notify list. -/
def createPipeline33 (d : DeviceState) (base : Pipeline_S) :
    Pipeline_S × DeviceState :=
  let program := d.next_obj
  let vao0 : VertexArray_S := ⟨0, d.next_obj + 1, 0, []⟩
  let p0 : Pipeline_S :=
    { base with bound_ibo := 0, bound_vao := 0, program := program,
                vaos := [vao0] }
  let r := bindAllBuffers p0 d.buffers d.max_vbo_bindings (d.next_obj + 2)
  (r.1, { d with pipelines := d.pipelines ++ [r.1], next_obj := r.2 })

/-- A pipeline record with neutral translated state, used as the creation
input of the concrete scenarios below. -/
def basePipeline : Pipeline_S :=
  { bound_ibo := 0, bound_vao := 0, program := 0,
    blending := ⟨false, 0, 0, 0⟩, depth_testing := ⟨false, 0⟩,
    face_culling := ⟨false, 0, 0⟩, scissor_test := false,
    index_size := 2, index_type := 0, primitive_mode := 4, fill_mode := 0,
    vertex_stride := 16, attributes := [], vaos := [] }

/-- Create n vertex buffers in a row, returning them oldest first. -/
def createVBs : DeviceState → Nat → DeviceState × List Buffer_S
  | d, 0 => (d, [])
  | d, n + 1 =>
      let r := createBuffer33 d ⟨BufferType.VERTEX_BUFFER, 16⟩
      let rr := createVBs r.2 n
      (rr.1, r.1 :: rr.2)

/-- Destroy the given buffers in order. -/
def destroyBuffers : DeviceState → List Buffer_S → DeviceState
  | d, [] => d
  | d, b :: rest => destroyBuffers (destroyBuffer33 d b) rest

/-- gl_33 device with max_vbo_bindings = 16 after creating 33 vertex buffers
and destroying the first 32: one live vertex buffer remains, holding slot 32
(group index 32 / 16 = 2). -/
def c2Device : DeviceState :=
  let r := createVBs (initDevice 16) 33
  destroyBuffers r.1 (r.2.take 32)

/-- The pipeline created on c2Device. -/
def c2Pipeline : Pipeline_S := (createPipeline33 c2Device basePipeline).1

/-- createBuffer on a fresh device with a ZERO-byte vertex buffer. -/
def c8ZeroResult : Buffer_S × DeviceState :=
  createBuffer33 (initDevice 16) ⟨BufferType.VERTEX_BUFFER, 0⟩

/-! ### Command list replay (gl_33 RenderDeviceImpl::submit) -/

/-- GL enable/disable capability and binding-target constants used by the
replay loop. -/
def GL_BLEND : Nat := 0x0BE2

/-- GL_DEPTH_TEST capability constant. -/
def GL_DEPTH_TEST : Nat := 0x0B71

/-- GL_CULL_FACE capability constant. -/
def GL_CULL_FACE : Nat := 0x0B44

/-- GL_SCISSOR_TEST capability constant. -/
def GL_SCISSOR_TEST : Nat := 0x0C11

/-- GL_UNIFORM_BUFFER binding target. -/
def GL_UNIFORM_BUFFER : Nat := 0x8A11

/-- GL_ELEMENT_ARRAY_BUFFER binding target. -/
def GL_ELEMENT_ARRAY_BUFFER : Nat := 0x8893

/-- GL_COPY_READ_BUFFER binding target. -/
def GL_COPY_READ_BUFFER : Nat := 0x8C3A

/-- GL_FRAMEBUFFER binding target. -/
def GL_FRAMEBUFFER : Nat := 0x8D40

/-- GL_READ_FRAMEBUFFER binding target. -/
def GL_READ_FRAMEBUFFER : Nat := 0x8CA8

/-- GL_DRAW_FRAMEBUFFER binding target. -/
def GL_DRAW_FRAMEBUFFER : Nat := 0x8CA9

/-- GL_TEXTURE0 texture unit base. -/
def GL_TEXTURE0 : Nat := 0x84C0

/-- An integer rectangle as recorded by setScissor/setViewport. -/
structure Rect where
  x : Int
  y : Int
  w : Int
  h : Int
deriving DecidableEq

/-- Command records: enum CommandType together with the union payloads of
struct Command (gl33_private.hpp).  Float payloads (clear color and depth)
are stored and forwarded but never computed with, so they are represented by
opaque Nat tokens.  BIND_PIPELINE carries a Pipeline_S by value and
BIND_VERTEX_BUFFER a Buffer_S by value, as the union does. -/
inductive Command where
  | SET_SCISSOR (r : Rect)
  | SET_VIEWPORT (r : Rect)
  | SET_CLEAR_DEPTH (d : Nat)
  | SET_CLEAR_COLOR (c : Nat × Nat × Nat × Nat)
  | CLEAR (mask : Nat)
  | BIND_PIPELINE (p : Pipeline_S)
  | BIND_STORAGE_BUFFER (idx obj : Nat)
  | BIND_UNIFORM_BUFFER (idx obj : Nat)
  | BIND_INDEX_BUFFER (obj : Nat)
  | BIND_VERTEX_BUFFER (buf : Buffer_S)
  | BIND_SAMPLER (idx obj : Nat)
  | BIND_TEXTURE (idx target obj : Nat)
  | BIND_RENDER_TARGET (obj : Nat)
  | WRITE_BUFFER (buf offset size : Nat)
  | COPY_RENDER_TARGET (src dst : Nat)
      (sx0 sy0 sx1 sy1 dx0 dy0 dx1 dy1 : Int) (mask filt : Nat)
  | DRAW (vertices instances base_vertex base_instance : Int)
  | IDRAW (indices instances base_index base_vertex base_instance : Int)
deriving DecidableEq

/-- Backend calls the replay loop issues, in order. -/
inductive GLCall where
  | glScissor (r : Rect)
  | glViewport (r : Rect)
  | glClearDepth (d : Nat)
  | glClearColor (c : Nat × Nat × Nat × Nat)
  | glClear (mask : Nat)
  | glDisable (cap : Nat)
  | glEnable (cap : Nat)
  | glBlendEquation (e : Nat)
  | glBlendFunc (sf df : Nat)
  | glDepthFunc (f : Nat)
  | glCullFace (f : Nat)
  | glFrontFace (f : Nat)
  | glPolygonMode (m : Nat)
  | glUseProgram (p : Nat)
  | glBindBufferBase (target idx obj : Nat)
  | glBindVertexArray (vao : Nat)
  | glVertexAttribBinding (attr point : Nat)
  | glBindBuffer (target obj : Nat)
  | glBindSampler (idx obj : Nat)
  | glActiveTexture (unit : Nat)
  | glBindTexture (target obj : Nat)
  | glBindFramebuffer (target obj : Nat)
  | glBufferSubData (offset size : Nat)
  | glBlitFramebuffer (sx0 sy0 sx1 sy1 dx0 dy0 dx1 dy1 : Int)
      (mask filt : Nat)
  | glDrawArraysInstancedBaseInstance (mode : Nat)
      (base_vertex vertices instances base_instance : Int)
  | glDrawElementsInstancedBaseVertexBaseInstance (mode : Nat)
      (indices : Int) (idx_type : Nat) (byte_offset : Int)
      (instances base_vertex base_instance : Int)
deriving DecidableEq

/-- The backend GL state the submit loop touches, together with the two
device fields it reads and writes (bound_pipeline, max_vbo_bindings) and a
counter generating fresh vertex-array names for glGenVertexArrays. -/
structure GLState where
  scissor : Rect
  viewport : Rect
  clear_depth : Nat
  clear_color : Nat × Nat × Nat × Nat
  blend_on : Bool
  depth_on : Bool
  cull_on : Bool
  scissor_on : Bool
  blend_equation : Nat
  blend_sfactor : Nat
  blend_dfactor : Nat
  depth_func : Nat
  cull_face : Nat
  front_face : Nat
  poly_mode : Nat
  program : Nat
  fb_binding : Nat
  bound_pipeline : Pipeline_S
  max_vbo_bindings : Nat
  next_obj : Nat

/-- Replay of a BIND_PIPELINE record: copy the pipeline into the device's
bound_pipeline field, unconditionally disable blend, depth test, cull face
and scissor test, then selectively re-enable each feature (setting its
parameters) if the incoming pipeline enables it, and finally set the polygon
mode and the program. -/
def execBindPipeline (s : GLState) (p : Pipeline_S) : GLState × List GLCall :=
  ({ s with bound_pipeline := p,
            blend_on := p.blending.enabled,
            depth_on := p.depth_testing.enabled,
            cull_on := p.face_culling.enabled,
            scissor_on := p.scissor_test,
            blend_equation :=
              if p.blending.enabled then p.blending.equation
              else s.blend_equation,
            blend_sfactor :=
              if p.blending.enabled then p.blending.sfactor
              else s.blend_sfactor,
            blend_dfactor :=
              if p.blending.enabled then p.blending.dfactor
              else s.blend_dfactor,
            depth_func :=
              if p.depth_testing.enabled then p.depth_testing.func
              else s.depth_func,
            cull_face :=
              if p.face_culling.enabled then p.face_culling.cull_face
              else s.cull_face,
            front_face :=
              if p.face_culling.enabled then p.face_culling.front_face
              else s.front_face,
            poly_mode := p.fill_mode,
            program := p.program },
   [GLCall.glDisable GL_BLEND, GLCall.glDisable GL_DEPTH_TEST,
    GLCall.glDisable GL_CULL_FACE, GLCall.glDisable GL_SCISSOR_TEST]
   ++ (if p.blending.enabled then
        [GLCall.glEnable GL_BLEND, GLCall.glBlendEquation p.blending.equation,
         GLCall.glBlendFunc p.blending.sfactor p.blending.dfactor]
       else [])
   ++ (if p.depth_testing.enabled then
        [GLCall.glEnable GL_DEPTH_TEST,
         GLCall.glDepthFunc p.depth_testing.func]
       else [])
   ++ (if p.face_culling.enabled then
        [GLCall.glEnable GL_CULL_FACE,
         GLCall.glCullFace p.face_culling.cull_face,
         GLCall.glFrontFace p.face_culling.front_face]
       else [])
   ++ (if p.scissor_test then [GLCall.glEnable GL_SCISSOR_TEST] else [])
   ++ [GLCall.glPolygonMode p.fill_mode, GLCall.glUseProgram p.program])

/-- Replay of a BIND_VERTEX_BUFFER record: resolve the vertex-array group
for the buffer's slot, rebind the vertex array object only if it is not the
cached bound_vao, and rewire the attribute bindings plus the element-array
buffer only if the group's cached buffer differs from the incoming one.
The source mutates the chain through bound_pipeline (a by-value copy of the
pipeline made at BIND_PIPELINE replay). -/
def execBindVertexBuffer (s : GLState) (buf : Buffer_S) :
    GLState × List GLCall :=
  let slot := buf.vbo.getD 0
  let r := getVertexArray s.bound_pipeline.vaos
    (slot / s.max_vbo_bindings) s.next_obj
  let node := r.1
  let bv :=
    if node.vaobj = s.bound_pipeline.bound_vao then
      (s.bound_pipeline.bound_vao, ([] : List GLCall))
    else (node.vaobj, [GLCall.glBindVertexArray node.vaobj])
  let rb :=
    if node.vbobj = buf.bufobj then (r.2.1, ([] : List GLCall))
    else
      (updateVA r.2.1 node.vaobj (fun n => { n with vbobj := buf.bufobj }),
       (s.bound_pipeline.attributes.map fun a =>
          GLCall.glVertexAttribBinding a.id (slot % s.max_vbo_bindings))
       ++ [GLCall.glBindBuffer GL_ELEMENT_ARRAY_BUFFER
            s.bound_pipeline.bound_ibo])
  ({ s with bound_pipeline :=
              { s.bound_pipeline with vaos := rb.1, bound_vao := bv.1 },
            next_obj := r.2.2 },
   bv.2 ++ rb.2)

/-- One iteration of the submit switch: replay a single command record
against the backend state, returning the new state and the backend calls
issued.  BIND_STORAGE_BUFFER has no case in the gl_33 switch (no storage
buffers in GL 3.3) and replays as a no-op. -/
def execCmd (s : GLState) : Command → GLState × List GLCall
  | Command.SET_SCISSOR r => ({ s with scissor := r }, [GLCall.glScissor r])
  | Command.SET_VIEWPORT r => ({ s with viewport := r }, [GLCall.glViewport r])
  | Command.SET_CLEAR_DEPTH d =>
      ({ s with clear_depth := d }, [GLCall.glClearDepth d])
  | Command.SET_CLEAR_COLOR c =>
      ({ s with clear_color := c }, [GLCall.glClearColor c])
  | Command.CLEAR m => (s, [GLCall.glClear m])
  | Command.BIND_PIPELINE p => execBindPipeline s p
  | Command.BIND_STORAGE_BUFFER _ _ => (s, [])
  | Command.BIND_UNIFORM_BUFFER idx obj =>
      (s, [GLCall.glBindBufferBase GL_UNIFORM_BUFFER idx obj])
  | Command.BIND_INDEX_BUFFER obj =>
      ({ s with bound_pipeline := { s.bound_pipeline with bound_ibo := obj } },
       [])
  | Command.BIND_VERTEX_BUFFER buf => execBindVertexBuffer s buf
  | Command.BIND_SAMPLER idx obj => (s, [GLCall.glBindSampler idx obj])
  | Command.BIND_TEXTURE idx target obj =>
      (s, [GLCall.glActiveTexture (GL_TEXTURE0 + idx),
           GLCall.glBindTexture target obj])
  | Command.BIND_RENDER_TARGET obj =>
      ({ s with fb_binding := obj },
       [GLCall.glBindFramebuffer GL_FRAMEBUFFER obj])
  | Command.WRITE_BUFFER b off sz =>
      (s, [GLCall.glBindBuffer GL_COPY_READ_BUFFER b,
           GLCall.glBufferSubData off sz])
  | Command.COPY_RENDER_TARGET src dst sx0 sy0 sx1 sy1 dx0 dy0 dx1 dy1
      mask filt =>
      (s, [GLCall.glBindFramebuffer GL_READ_FRAMEBUFFER src,
           GLCall.glBindFramebuffer GL_DRAW_FRAMEBUFFER dst,
           GLCall.glBlitFramebuffer sx0 sy0 sx1 sy1 dx0 dy0 dx1 dy1 mask filt,
           GLCall.glBindFramebuffer GL_FRAMEBUFFER s.fb_binding])
  | Command.DRAW v i bv bi =>
      (s, [GLCall.glDrawArraysInstancedBaseInstance
            s.bound_pipeline.primitive_mode bv v i bi])
  | Command.IDRAW n i bidx bv bi =>
      (s, [GLCall.glDrawElementsInstancedBaseVertexBaseInstance
            s.bound_pipeline.primitive_mode n s.bound_pipeline.index_type
            ((s.bound_pipeline.index_size : Int) * bidx) i bv bi])

/-- The submit loop: replay all recorded commands in append order,
concatenating the backend calls. -/
def replay (s : GLState) : List Command → GLState × List GLCall
  | [] => (s, [])
  | c :: rest =>
      let r := execCmd s c
      let rr := replay r.1 rest
      (rr.1, r.2 ++ rr.2)

/-- Whether a record is a draw command (DRAW or IDRAW). -/
def isDrawCmd : Command → Bool
  | Command.DRAW _ _ _ _ => true
  | Command.IDRAW _ _ _ _ _ => true
  | _ => false

/-- Whether a backend call is a draw dispatch. -/
def isDrawCall : GLCall → Bool
  | GLCall.glDrawArraysInstancedBaseInstance _ _ _ _ _ => true
  | GLCall.glDrawElementsInstancedBaseVertexBaseInstance _ _ _ _ _ _ _ => true
  | _ => false

/-- The scissor/viewport/clear fraction of the backend state — the values a
draw dispatch executes under. -/
structure RecState where
  scissor : Rect
  viewport : Rect
  clear_depth : Nat
  clear_color : Nat × Nat × Nat × Nat
deriving DecidableEq

/-- Project the tracked backend state onto its scissor/viewport/clear part. -/
def projRec (s : GLState) : RecState :=
  ⟨s.scissor, s.viewport, s.clear_depth, s.clear_color⟩

/-- The draw dispatches performed when the submit loop replays the records,
each paired with the scissor/viewport/clear state in effect when it
executes (instrumented observation of the same execCmd). -/
def replayDraws (s : GLState) : List Command → List (Command × RecState)
  | [] => []
  | c :: rest =>
      if isDrawCmd c then (c, projRec s) :: replayDraws (execCmd s c).1 rest
      else replayDraws (execCmd s c).1 rest

/-- How one record updates the last-recorded scissor/viewport/clear values —
the reference transition, written from the claim text. -/
def updateRec (rs : RecState) : Command → RecState
  | Command.SET_SCISSOR r => { rs with scissor := r }
  | Command.SET_VIEWPORT r => { rs with viewport := r }
  | Command.SET_CLEAR_DEPTH d => { rs with clear_depth := d }
  | Command.SET_CLEAR_COLOR c => { rs with clear_color := c }
  | _ => rs

/-- Reference function written from the claim text: walk the records in
recorded order keeping the last-recorded scissor/viewport/clear values, and
emit one dispatch per draw record, under those values. -/
def specDraws (rs : RecState) : List Command → List (Command × RecState)
  | [] => []
  | c :: rest =>
      if isDrawCmd c then (c, rs) :: specDraws rs rest
      else specDraws (updateRec rs c) rest

/-! ### Render target creation (gl_33 RenderDeviceImpl::createRenderTarget) -/

/-- RenderTargetCreateInfo: color attachments as (slot id, texture object)
pairs, plus optional depth and stencil attachments (texture objects). -/
structure RenderTargetCreateInfo where
  color_attachments : List (Nat × Nat)
  depth_attachment : Option Nat
  stencil_attachment : Option Nat
deriving DecidableEq

/-- Modelled from the spec: glCheckFramebufferStatus is behaviour of the
graphics driver, which the spec treats as an external collaborator, so the
completeness verdict is not code of this repository.  Per the spec, an
attachment set with zero complete attachments is incomplete, while one with
a color attachment at slot 0 plus a depth attachment is complete; attached
textures are taken as attachment-complete, so completeness reduces to having
at least one attachment. -/
def framebufferComplete (info : RenderTargetCreateInfo) : Bool :=
  info.depth_attachment.isSome || info.stencil_attachment.isSome ||
    !info.color_attachments.isEmpty

/-- gl_33 RenderDeviceImpl::createRenderTarget: generate a framebuffer name,
bind it and attach the depth/stencil/color attachments, then check
completeness; on an incomplete set delete the framebuffer and return the
null handle.  `live` is the list of existing backend framebuffer names and
`fresh` generates the next name; the result carries the returned handle, the
updated live list and the updated counter. -/
def createRenderTarget33 (live : List Nat) (fresh : Nat)
    (info : RenderTargetCreateInfo) : Option Nat × List Nat × Nat :=
  let fbobj := fresh
  let live1 := fbobj :: live
  if framebufferComplete info then (some fbobj, live1, fresh + 1)
  else (none, live1.erase fbobj, fresh + 1)

/-! ### Shader creation (gl_33 RenderDeviceImpl::createShader) -/

/-- ShaderStage of the public header. -/
inductive ShaderStage where
  | VERTEX
  | FRAGMENT
deriving DecidableEq

/-- ShaderFormat of the public header (gl_33 supports only SOURCE_GLSL; any
other value falls into the default case). -/
inductive ShaderFormat where
  | SOURCE_GLSL
  | BINARY_SPIRV
deriving DecidableEq

/-- Driver compile outcome: GL_COMPILE_STATUS, GL_INFO_LOG_LENGTH (the
driver reports the log length including the terminating NUL, so a non-empty
log reports a length greater than 1 and the source forwards exactly when
the length exceeds 1), and the log text. -/
structure CompileOutcome where
  status : Bool
  info_log_length : Nat
  log : String

/-- Events of a createShader call: the compile of the preprocessed source,
a message forwarded to the registered debug callback, or the release of the
backend shader object. -/
inductive ShaderEvent where
  | compileSource (src : String)
  | debugMessage (text : String)
  | deleteShaderObj (obj : Nat)
deriving DecidableEq

/-- The stage-dependent preprocessor prologue built at the top of
createShader (gl_33): version line, the _UVRE_ define and the
stage-specific define. -/
def shaderPreamble : ShaderStage → String
  | ShaderStage.VERTEX =>
      "#version 330 core\n#define _UVRE_ 1\n#define _VERTEX_SHADER_ 1\n"
  | ShaderStage.FRAGMENT =>
      "#version 330 core\n#define _UVRE_ 1\n#define _FRAGMENT_SHADER_ 1\n"

/-- The full source handed to glCompileShader in the SOURCE_GLSL case: the
prologue, the _GLSL_ define added inside the format switch, then the
caller's code. -/
def glslSource (stage : ShaderStage) (code : String) : String :=
  shaderPreamble stage ++ "#define _GLSL_ 1\n" ++ code

/-- gl_33 RenderDeviceImpl::createShader.  `onDebugMessage` says whether the
application registered a debug callback, `comp` is the driver compiler
(glCompileShader plus the status and log queries), `shobj` the name
glCreateShader returned.  Result: the created handle (none on failure) and
the backend/debug events in source order: compile, then the log forwarded
to the callback whenever one is registered and the reported log length
exceeds 1 (regardless of the compile status), then — only on failure — the
release of the shader object.  An unsupported format releases the object
and returns null without touching the log. -/
def createShader33 (onDebugMessage : Bool) (comp : String → CompileOutcome)
    (shobj : Nat) (stage : ShaderStage) (format : ShaderFormat)
    (code : String) : Option Nat × List ShaderEvent :=
  match format with
  | ShaderFormat.SOURCE_GLSL =>
      let src := glslSource stage code
      let out := comp src
      let evs := [ShaderEvent.compileSource src]
        ++ (if onDebugMessage ∧ out.info_log_length > 1 then
              [ShaderEvent.debugMessage out.log]
            else [])
      if out.status then (some shobj, evs)
      else (none, evs ++ [ShaderEvent.deleteShaderObj shobj])
  | _ => (none, [ShaderEvent.deleteShaderObj shobj])

/-! ### Theorems -/

/-- Claiming a node changes no slot index. -/
theorem map_index_markUsed (l : List VBOBinding) (p : Nat) :
    (markUsed l p).map VBOBinding.index = l.map VBOBinding.index := by
  induction l generalizing p with
  | nil => rfl
  | cons b rest ih =>
      cases p with
      | zero => rfl
      | succ q => simp [markUsed, ih]

/-- Releasing a slot changes no slot index. -/
theorem map_index_releaseSlot (l : List VBOBinding) (s : Nat) :
    (releaseSlot l s).map VBOBinding.index = l.map VBOBinding.index := by
  induction l with
  | nil => rfl
  | cons b rest ih =>
      by_cases hb : b.index = s <;> simp [releaseSlot, hb, ih]

/-- Claiming a node keeps the list length. -/
theorem length_markUsed (l : List VBOBinding) (p : Nat) :
    (markUsed l p).length = l.length := by
  have h := congrArg List.length (map_index_markUsed l p)
  simpa using h

/-- Releasing a slot keeps the list length. -/
theorem length_releaseSlot (l : List VBOBinding) (s : Nat) :
    (releaseSlot l s).length = l.length := by
  have h := congrArg List.length (map_index_releaseSlot l s)
  simpa using h

/-- The gl_33 acquisition preserves the allocator shape: on every non-empty
list whose indices read, head to tail, length - 1 down to 0, the resulting
list is again non-empty with indices length - 1 down to 0 (reuse keeps the
list, growth prepends a node carrying exactly the next index). -/
theorem acquireSlot33_shape (l : List VBOBinding) (hne : l ≠ [])
    (h : l.map VBOBinding.index = (List.range l.length).reverse) :
    (acquireSlot33 l).2 ≠ [] ∧
    (acquireSlot33 l).2.map VBOBinding.index
      = (List.range (acquireSlot33 l).2.length).reverse := by
  unfold acquireSlot33
  cases hf : firstFreePos l with
  | some p =>
      refine ⟨?_, ?_⟩
      · intro hc
        have hlen := congrArg List.length hc
        rw [length_markUsed] at hlen
        exact hne (List.eq_nil_of_length_eq_zero (by simpa using hlen))
      · rw [map_index_markUsed, length_markUsed]
        exact h
  | none =>
      obtain ⟨b, t, rfl⟩ := List.exists_cons_of_ne_nil hne
      have hr : (List.range (t.length + 1)).reverse
          = t.length :: (List.range t.length).reverse := by
        rw [List.range_succ, List.reverse_append]
        rfl
      have h2 := h
      simp only [List.map_cons, List.length_cons] at h2
      rw [hr] at h2
      have hhead := (List.cons_eq_cons.mp h2).1
      have htail := (List.cons_eq_cons.mp h2).2
      refine ⟨by simp, ?_⟩
      simp only [headIndex, List.map_cons, List.length_cons]
      have hr2 : (List.range (t.length + 1 + 1)).reverse
          = (t.length + 1) :: (List.range (t.length + 1)).reverse := by
        rw [List.range_succ, List.reverse_append]
        rfl
      rw [hr2, hr, hhead, htail]

/-- Every reachable gl_33 slot list is non-empty and its indices read, head
to tail, length - 1 down to 0: the head always carries the historical
maximum and node storage never shrinks. -/
theorem reach33_shape (l : List VBOBinding) (h : Reach33 l) :
    l ≠ [] ∧ l.map VBOBinding.index = (List.range l.length).reverse := by
  induction h with
  | init => exact ⟨by simp [initVbos], by rfl⟩
  | acquire m hm ih => exact acquireSlot33_shape m ih.1 ih.2
  | release m s hm ih =>
      refine ⟨?_, ?_⟩
      · intro hc
        have hlen := congrArg List.length hc
        rw [length_releaseSlot] at hlen
        exact ih.1 (List.eq_nil_of_length_eq_zero (by simpa using hlen))
      · rw [map_index_releaseSlot, length_releaseSlot]
        exact ih.2

/-- In every reachable gl_33 allocator state the slot indices are pairwise
distinct: an occupied slot is held by exactly one node, hence by exactly one
live vertex buffer. -/
theorem reach33_slots_nodup (l : List VBOBinding) (h : Reach33 l) :
    (l.map VBOBinding.index).Nodup := by
  rw [(reach33_shape l h).2]
  simp [List.nodup_range]

/-- In every reachable gl_33 allocator state every slot index is below the
node count, i.e. no occupied slot ever exceeds the historical maximum (the
head index, which equals length - 1). -/
theorem reach33_slots_bounded (l : List VBOBinding) (h : Reach33 l) :
    ∀ b ∈ l, b.index < l.length := by
  intro b hb
  have hm : b.index ∈ l.map VBOBinding.index := List.mem_map_of_mem _ hb
  rw [(reach33_shape l h).2] at hm
  rw [List.mem_reverse] at hm
  exact List.mem_range.mp hm

/-- The gl_33 acquisition reuses a released slot before creating any node:
whenever the scan finds a free node, the node count is unchanged and the
slot handed out is the one at the found position. -/
theorem acquire33_reuses_before_growth (l : List VBOBinding) (p : Nat)
    (h : firstFreePos l = some p) :
    (acquireSlot33 l).2.length = l.length ∧
    (acquireSlot33 l).1 = slotAt l p := by
  simp [acquireSlot33, h, length_markUsed]

/-- Claim C1 (code_bug evaluation): on the src_gl device, creating three
vertex buffers with none destroyed hands out the slot indices 0, 1, 1: the
second and third live vertex buffers hold the same binding slot, violating
the claimed one-live-buffer-per-occupied-slot invariant.  (Every node the
src_gl allocator creates gets index = tail index + 1, and the tail is always
the seed node of index 0, because fresh nodes are prepended at the head.)
The gl_33 variant, which the spec describes, hands out 0, 1, 2. -/
theorem c1_srcgl_duplicate_slot :
    srcSlots3 = [0, 1, 1] ∧ ¬ srcSlots3.Nodup ∧ gl33Slots3 = [0, 1, 2] := by
  decide

/-- Claim C4 (counterexample): the claim quantifies over calls whose
mathematical sum offset + size exceeds the capacity; at offset = 2^64 - 1,
size = 2, capacity 10 the mathematical sum exceeds the capacity yet the
size_t sum wraps to 1, the guard passes, and both variants issue the backend
write (src_gl even reports success) — so a write past the end IS issued. -/
theorem c4_oob_write_counterexample :
    (2 ^ 64 - 1) + 2 > 10 ∧
    writeBuffer33 10 (2 ^ 64 - 1) 2 = some (2 ^ 64 - 1, 2) ∧
    writeBufferSrc 10 (2 ^ 64 - 1) 2 = (true, some (2 ^ 64 - 1, 2)) := by
  decide

/-- Claim C4 (amended): for calls whose size_t sum does not wrap
(offset + size < 2^64), offset + size > capacity implies neither variant
issues any backend write, and src_gl (the variant whose interface returns a
result) returns false. -/
theorem c4_oob_write_amended (cap offset size : Nat)
    (hnw : offset + size < W64) (hgt : offset + size > cap) :
    writeBuffer33 cap offset size = none ∧
    writeBufferSrc cap offset size = (false, none) := by
  have hm : (offset + size) % W64 = offset + size := Nat.mod_eq_of_lt hnw
  refine ⟨?_, ?_⟩
  · simp [writeBuffer33, hm, hgt]
  · simp [writeBufferSrc, hm, Nat.le_of_lt hgt]

/-- Witness for c4_oob_write_amended at capacity 4, offset 3, size 2. -/
theorem c4_oob_write_amended_witness :
    writeBuffer33 4 3 2 = none ∧ writeBufferSrc 4 3 2 = (false, none) :=
  c4_oob_write_amended 4 3 2 (by decide) (by decide)

/-- Claim C9: the gl_33 guard compares the size_t (mod 2^64) sum against the
capacity — writeBuffer33 rejects exactly when (offset + size) % 2^64 exceeds
the capacity — and consequently there are inputs whose mathematical sum
exceeds the capacity for which the guard passes and the backend write is
issued, in both variants. -/
theorem c9_wrap_guard :
    (∀ cap offset size : Nat,
        writeBuffer33 cap offset size = none ↔ (offset + size) % W64 > cap) ∧
    (∀ cap offset size : Nat,
        writeBufferSrc cap offset size = (false, none) ↔
          (offset + size) % W64 ≥ cap) ∧
    (2 ^ 64 - 5) + 7 > 100 ∧
    writeBuffer33 100 (2 ^ 64 - 5) 7 = some (2 ^ 64 - 5, 7) ∧
    (writeBufferSrc 100 (2 ^ 64 - 5) 7).1 = true := by
  refine ⟨fun cap offset size => ?_, fun cap offset size => ?_, by decide,
    by decide, by decide⟩
  · unfold writeBuffer33
    split <;> simp_all
  · unfold writeBufferSrc
    split <;> simp_all

/-- Claim C10: at the exact capacity boundary (offset + size = capacity, no
wrap-around) the two variants disagree: gl_33 issues the write, src_gl
rejects it and returns false. -/
theorem c10_boundary_divergence (cap offset size : Nat)
    (hcap : cap < W64) (hsum : offset + size = cap) :
    writeBuffer33 cap offset size = some (offset, size) ∧
    writeBufferSrc cap offset size = (false, none) := by
  have hm : (offset + size) % W64 = cap := by
    rw [hsum]
    exact Nat.mod_eq_of_lt hcap
  refine ⟨?_, ?_⟩
  · simp [writeBuffer33, hm]
  · simp [writeBufferSrc, hm]

/-- Witness for c10_boundary_divergence at capacity 4, offset 2, size 2. -/
theorem c10_boundary_divergence_witness :
    writeBuffer33 4 2 2 = some (2, 2) ∧ writeBufferSrc 4 2 2 = (false, none) :=
  c10_boundary_divergence 4 2 2 (by decide) (by decide)

/-- Claim C2 (code_bug evaluation): on the gl_33 device with
max_vbo_bindings = 16, after creating 33 vertex buffers and destroying the
first 32, the single live buffer holds slot 32, whose group index is
32 / 16 = 2.  A pipeline created now binds that buffer — but into a group
object created with index 1 (head index + 1), and no group object with
index 2 exists in the pipeline's chain, because getVertexArray numbers a
fresh node by head index + 1 instead of the requested group index. -/
theorem c2_pipeline_group_index_slip :
    c2Device.buffers.map Buffer_S.vbo = [some 32] ∧
    c2Pipeline.vaos.map (fun n => (n.index, n.bound)) =
      [(1, [(0, 33)]), (0, [])] ∧
    findVA c2Pipeline.vaos 2 = none := by
  decide

/-- Claim C8 (counterexample): a vertex buffer created with ZERO bytes on a
fresh gl_33 device does participate in the bridge: it claims binding slot 0
and is appended to the device's vertex-buffer notify list — the source tests
only the buffer type, never the size. -/
theorem c8_zero_size_counterexample :
    c8ZeroResult.1.vbo = some 0 ∧
    c8ZeroResult.2.buffers = [⟨1, some 0, 0⟩] ∧
    c8ZeroResult.2.vbos = [⟨0, false⟩] := by
  decide

/-- Claim C8 (amended): a buffer created with a NON-VERTEX type never
participates in the bridge: it claims no binding slot, the slot list, the
notify list and every existing pipeline are left untouched (and since a new
pipeline binds exactly the notify list, no future pipeline binds it
either). -/
theorem c8_nonvertex_amended (d : DeviceState) (info : BufferCreateInfo)
    (h : info.type ≠ BufferType.VERTEX_BUFFER) :
    (createBuffer33 d info).1.vbo = none ∧
    (createBuffer33 d info).2.vbos = d.vbos ∧
    (createBuffer33 d info).2.buffers = d.buffers ∧
    (createBuffer33 d info).2.pipelines = d.pipelines := by
  simp [createBuffer33, h]

/-- Witness for c8_nonvertex_amended: an index buffer on a fresh device. -/
theorem c8_nonvertex_amended_witness :
    (createBuffer33 (initDevice 16) ⟨BufferType.INDEX_BUFFER, 4⟩).1.vbo
      = none ∧
    (createBuffer33 (initDevice 16) ⟨BufferType.INDEX_BUFFER, 4⟩).2.vbos
      = (initDevice 16).vbos ∧
    (createBuffer33 (initDevice 16) ⟨BufferType.INDEX_BUFFER, 4⟩).2.buffers
      = (initDevice 16).buffers ∧
    (createBuffer33 (initDevice 16) ⟨BufferType.INDEX_BUFFER, 4⟩).2.pipelines
      = (initDevice 16).pipelines :=
  c8_nonvertex_amended (initDevice 16) ⟨BufferType.INDEX_BUFFER, 4⟩
    (by decide)

/-- Replaying any single record updates the scissor/viewport/clear part of
the backend state exactly as the reference transition says: only the four
state records touch it. -/
theorem projRec_execCmd (s : GLState) (c : Command) :
    projRec (execCmd s c).1 = updateRec (projRec s) c := by
  cases c <;>
    simp [execCmd, projRec, updateRec, execBindPipeline, execBindVertexBuffer]

/-- The reference dispatch list emits exactly the recorded draw records, in
recorded order. -/
theorem specDraws_fst (cmds : List Command) :
    ∀ rs : RecState,
      (specDraws rs cmds).map Prod.fst = cmds.filter isDrawCmd := by
  induction cmds with
  | nil => intro rs; rfl
  | cons c rest ih =>
      intro rs
      by_cases h : isDrawCmd c
      · simp [specDraws, h, List.filter_cons, ih]
      · simp [specDraws, h, List.filter_cons, ih]

/-- The instrumented replay produces the reference dispatch list. -/
theorem replayDraws_eq_specDraws (cmds : List Command) :
    ∀ s : GLState, replayDraws s cmds = specDraws (projRec s) cmds := by
  induction cmds with
  | nil => intro s; rfl
  | cons c rest ih =>
      intro s
      cases c <;>
        simp [replayDraws, specDraws, isDrawCmd, updateRec, ih,
          projRec_execCmd]

/-- Attribute rewiring emits no draw dispatch. -/
theorem filter_drawcall_attrib_binds (l : List VertexAttrib) (g : Nat) :
    (l.map fun a => GLCall.glVertexAttribBinding a.id g).filter isDrawCall
      = [] := by
  induction l with
  | nil => rfl
  | cons a rest ih => simp [List.filter_cons, isDrawCall, ih]

/-- Replaying a single record issues exactly one draw dispatch if the record
is a draw command, none otherwise. -/
theorem drawCalls_execCmd (s : GLState) (c : Command) :
    ((execCmd s c).2.filter isDrawCall).length
      = if isDrawCmd c then 1 else 0 := by
  cases c
  case BIND_VERTEX_BUFFER buf =>
    simp only [execCmd, execBindVertexBuffer, isDrawCmd]
    split <;> split <;>
      simp [List.filter_append, List.filter_cons, isDrawCall,
        filter_drawcall_attrib_binds]
  all_goals
    simp [execCmd, isDrawCmd, isDrawCall, execBindPipeline,
      List.filter_append, List.filter_cons,
      filter_drawcall_attrib_binds, apply_ite (List.filter isDrawCall)]

/-- The full replay issues exactly one draw dispatch per recorded draw
command. -/
theorem replay_drawCall_count (cmds : List Command) :
    ∀ s : GLState,
      ((replay s cmds).2.filter isDrawCall).length
        = (cmds.filter isDrawCmd).length := by
  induction cmds with
  | nil => intro s; rfl
  | cons c rest ih =>
      intro s
      by_cases h : isDrawCmd c
      · simp [replay, List.filter_append, List.filter_cons,
          drawCalls_execCmd, h, ih]
        omega
      · simp [replay, List.filter_append, List.filter_cons,
          drawCalls_execCmd, h, ih]

/-- Claim C3: submitting a command list replays the records strictly in
recorded order — the draw dispatches it performs are exactly the recorded
draw commands, in order, each executing under the scissor/viewport/clear
values most recently recorded before it (the reference walk specDraws,
written from the claim), and the backend receives exactly one draw dispatch
per recorded draw command. -/
theorem c3_submit_replays_in_order (s : GLState) (cmds : List Command) :
    replayDraws s cmds = specDraws (projRec s) cmds ∧
    (replayDraws s cmds).map Prod.fst = cmds.filter isDrawCmd ∧
    ((replay s cmds).2.filter isDrawCall).length
      = (cmds.filter isDrawCmd).length := by
  refine ⟨replayDraws_eq_specDraws cmds s, ?_, replay_drawCall_count cmds s⟩
  rw [replayDraws_eq_specDraws cmds s, specDraws_fst cmds]

/-- Claim C5: replaying a BIND_PIPELINE record leaves the four global
feature toggles equal to the incoming pipeline's flags irrespective of the
previous state (so nothing enabled by a previously bound pipeline stays
enabled unless the new pipeline also enables it), sets each feature's
parameters exactly when that feature is enabled, and the first four backend
calls issued are the unconditional disables of blend, depth test, cull face
and scissor test. -/
theorem c5_bind_pipeline_resets_state (s : GLState) (p : Pipeline_S) :
    (execCmd s (Command.BIND_PIPELINE p)).1.blend_on = p.blending.enabled ∧
    (execCmd s (Command.BIND_PIPELINE p)).1.depth_on
      = p.depth_testing.enabled ∧
    (execCmd s (Command.BIND_PIPELINE p)).1.cull_on
      = p.face_culling.enabled ∧
    (execCmd s (Command.BIND_PIPELINE p)).1.scissor_on = p.scissor_test ∧
    (execCmd s (Command.BIND_PIPELINE p)).1.blend_equation
      = (if p.blending.enabled then p.blending.equation
         else s.blend_equation) ∧
    (execCmd s (Command.BIND_PIPELINE p)).1.blend_sfactor
      = (if p.blending.enabled then p.blending.sfactor
         else s.blend_sfactor) ∧
    (execCmd s (Command.BIND_PIPELINE p)).1.blend_dfactor
      = (if p.blending.enabled then p.blending.dfactor
         else s.blend_dfactor) ∧
    (execCmd s (Command.BIND_PIPELINE p)).1.depth_func
      = (if p.depth_testing.enabled then p.depth_testing.func
         else s.depth_func) ∧
    (execCmd s (Command.BIND_PIPELINE p)).1.cull_face
      = (if p.face_culling.enabled then p.face_culling.cull_face
         else s.cull_face) ∧
    (execCmd s (Command.BIND_PIPELINE p)).1.front_face
      = (if p.face_culling.enabled then p.face_culling.front_face
         else s.front_face) ∧
    (execCmd s (Command.BIND_PIPELINE p)).2.take 4
      = [GLCall.glDisable GL_BLEND, GLCall.glDisable GL_DEPTH_TEST,
         GLCall.glDisable GL_CULL_FACE, GLCall.glDisable GL_SCISSOR_TEST] :=
  ⟨rfl, rfl, rfl, rfl, rfl, rfl, rfl, rfl, rfl, rfl, rfl⟩

/-- Claim C6: creating a render target with an incomplete attachment set
fails synchronously and atomically — the framebuffer generated during the
attempt is released (the live framebuffer set is exactly what it was) and
the null handle is returned; the zero-attachment set is incomplete; and a
creation with one color attachment at slot 0 plus a depth attachment
succeeds, returning a fresh live framebuffer. -/
theorem c6_render_target_completeness (live : List Nat) (fresh : Nat)
    (info : RenderTargetCreateInfo) (t d : Nat)
    (hinc : framebufferComplete info = false) :
    createRenderTarget33 live fresh info = (none, live, fresh + 1) ∧
    framebufferComplete ⟨[], none, none⟩ = false ∧
    createRenderTarget33 live fresh ⟨[(0, t)], some d, none⟩
      = (some fresh, fresh :: live, fresh + 1) := by
  refine ⟨?_, rfl, rfl⟩
  simp [createRenderTarget33, hinc]

/-- Witness for c6_render_target_completeness: the zero-attachment creation
fails atomically on an empty device, and a color-plus-depth creation
succeeds. -/
theorem c6_render_target_completeness_witness :
    createRenderTarget33 [] 0 ⟨[], none, none⟩ = (none, [], 1) ∧
    framebufferComplete ⟨[], none, none⟩ = false ∧
    createRenderTarget33 [] 0 ⟨[(0, 5)], some 7, none⟩
      = (some 0, [0], 1) :=
  c6_render_target_completeness [] 0 ⟨[], none, none⟩ 5 7 (by decide)

/-- Claim C7: createShader first preprocesses the source (stage-specific
macro injection) and compiles exactly that preprocessed source (the first
backend event is its compilation); if compilation fails, the handle is null
and the last event releases the partially created backend shader object;
and whenever a debug callback is registered and the compiler log is
non-empty (reported length exceeding 1), the log is forwarded to the
callback — irrespective of the compile status. -/
theorem c7_create_shader_behaviour (onDbg : Bool)
    (comp : String → CompileOutcome) (shobj : Nat) (stage : ShaderStage)
    (code : String) :
    ((createShader33 onDbg comp shobj stage ShaderFormat.SOURCE_GLSL
        code).2.head?
      = some (ShaderEvent.compileSource (glslSource stage code))) ∧
    ((comp (glslSource stage code)).status = false →
      (createShader33 onDbg comp shobj stage ShaderFormat.SOURCE_GLSL
          code).1 = none ∧
      (createShader33 onDbg comp shobj stage ShaderFormat.SOURCE_GLSL
          code).2.getLast?
        = some (ShaderEvent.deleteShaderObj shobj)) ∧
    (onDbg = true → (comp (glslSource stage code)).info_log_length > 1 →
      ShaderEvent.debugMessage ((comp (glslSource stage code)).log)
        ∈ (createShader33 onDbg comp shobj stage ShaderFormat.SOURCE_GLSL
            code).2) := by
  refine ⟨?_, fun hfail => ⟨?_, ?_⟩, fun hdbg hlog => ?_⟩
  · simp only [createShader33]
    split <;> rfl
  · simp [createShader33, hfail]
  · simp [createShader33, hfail]
    rw [← List.cons_append, List.getLast?_concat]
  · simp [createShader33, hdbg, hlog]
    split <;> simp

/-- Witness for c7_create_shader_behaviour: a registered callback, a driver
that fails the compile with a non-empty log, shader object 7, a vertex
stage and a tiny source. -/
theorem c7_create_shader_behaviour_witness :
    ((createShader33 true (fun _ => ⟨false, 5, "bad"⟩) 7 ShaderStage.VERTEX
        ShaderFormat.SOURCE_GLSL "code").2.head?
      = some (ShaderEvent.compileSource
          (glslSource ShaderStage.VERTEX "code"))) ∧
    ((createShader33 true (fun _ => ⟨false, 5, "bad"⟩) 7 ShaderStage.VERTEX
        ShaderFormat.SOURCE_GLSL "code").1 = none ∧
     (createShader33 true (fun _ => ⟨false, 5, "bad"⟩) 7 ShaderStage.VERTEX
        ShaderFormat.SOURCE_GLSL "code").2.getLast?
      = some (ShaderEvent.deleteShaderObj 7)) ∧
    ShaderEvent.debugMessage "bad"
      ∈ (createShader33 true (fun _ => ⟨false, 5, "bad"⟩) 7
          ShaderStage.VERTEX ShaderFormat.SOURCE_GLSL "code").2 := by
  have h := c7_create_shader_behaviour true (fun _ => ⟨false, 5, "bad"⟩) 7
    ShaderStage.VERTEX "code"
  exact ⟨h.1, h.2.1 rfl, h.2.2 rfl (by decide)⟩

end UVRE
